import Mathlib

/-!
Verification of the ScamurAI banker fraud-analysis pipeline.

This file gives a shallow embedding of the service layer
(`src/services/data_service.py`, `src/services/ai_service.py`,
`src/services/analysis_service.py` and the pydantic models in
`src/models/analysis.py`), and proves the specification claims about it.

Modelling conventions:
* Python strings are Lean `String`s; `s.lower()` is `pyLower`, `s.strip()`
  is `pyStrip`, and the Python substring test `a in b` is `pyIn a b`.
* A pandas row is an association list from column name to cell `Value`
  (string or integer cells); a DataFrame is its column list plus rows.
* Fallible Python code (raising) is modelled with `Except String`.
* Floats used by the confidence score are modelled as exact rationals.
* `json.loads` is modelled by the executable JSON parser `jsonParse`.
-/

namespace ScamurAI

/-! ### Python string primitives -/

/-- One character of Python whitespace (the ASCII subset used by `str.strip`). -/
def isSpaceChar (c : Char) : Bool :=
  c == ' ' || c == '\t' || c == '\n' || c == '\r' || c == Char.ofNat 11 || c == Char.ofNat 12

/-- `startsWithL m l` holds when `m` is a prefix of `l` (on character lists). -/
def startsWithL : List Char → List Char → Bool
  | [], _ => true
  | _ :: _, [] => false
  | a :: as, b :: bs => a == b && startsWithL as bs

/-- `hasSub m l` holds when `m` occurs contiguously inside `l`:
Python's `m in l` for strings. -/
def hasSub (m : List Char) : List Char → Bool
  | [] => startsWithL m []
  | c :: cs => startsWithL m (c :: cs) || hasSub m cs

/-- Python `needle in hay` on strings. -/
def pyIn (needle hay : String) : Bool := hasSub needle.data hay.data

/-- Python `s.lower()` (ASCII behaviour). -/
def pyLower (s : String) : String := ⟨s.data.map Char.toLower⟩

/-- Strip Python whitespace from both ends of a character list. -/
def stripL (l : List Char) : List Char :=
  ((l.dropWhile isSpaceChar).reverse.dropWhile isSpaceChar).reverse

/-- Python `s.strip()`. -/
def pyStrip (s : String) : String := ⟨stripL s.data⟩

/-- Python `str.replace(needle, repl)` on character lists (non-overlapping,
left to right), with fuel for termination. -/
def replaceSubAux (needle repl : List Char) : Nat → List Char → List Char
  | 0, l => l
  | _ + 1, [] => []
  | fuel + 1, c :: cs =>
    if startsWithL needle (c :: cs) && !needle.isEmpty then
      repl ++ replaceSubAux needle repl fuel ((c :: cs).drop needle.length)
    else
      c :: replaceSubAux needle repl fuel cs

/-- Python `s.replace(needle, repl)` (for non-empty needles). -/
def pyReplace (s needle repl : String) : String :=
  ⟨replaceSubAux needle.data repl.data s.data.length s.data⟩

/-- Python `str.title()`: uppercase every letter that follows a non-letter,
lowercase all other letters. The flag records whether the previous
character was a letter. -/
def pyTitleAux : Bool → List Char → List Char
  | _, [] => []
  | prev, c :: cs =>
    if c.isAlpha then
      (if prev then c.toLower else c.toUpper) :: pyTitleAux true cs
    else
      c :: pyTitleAux false cs

/-- Python `s.title()`. -/
def pyTitle (s : String) : String := ⟨pyTitleAux false s.data⟩

/-! ### Data model: pandas rows and DataFrames

A cell is a string or an integer (the two cell types the service layer
reads); a row maps column names to cells; a DataFrame is a column list
together with its rows. -/

inductive Value where
  | vStr (s : String)
  | vInt (n : Int)
deriving DecidableEq, Repr

/-- Python `str(cell)`. -/
def Value.pyStr : Value → String
  | .vStr s => s
  | .vInt n => toString n

/-- Python `cell > 0`: defined for integer cells, a `TypeError` for strings
(modelled as an error message, since the comparison raises). -/
def Value.pyGtZero : Value → Except String Bool
  | .vInt n => .ok (0 < n)
  | .vStr _ => .error "TypeError: '>' not supported between instances of 'str' and 'int'"

/-- A pandas row: association list from column name to cell. -/
abbrev Row := List (String × Value)

/-- Cell of a row under a column name (`row[col]` / `col in row`). -/
def rowGet (r : Row) (k : String) : Option Value :=
  (r.find? (fun p => p.1 == k)).map (fun p => p.2)

/-- Python `row.get(col, default)`. -/
def rowGetD (r : Row) (k : String) (d : Value) : Value := (rowGet r k).getD d

/-- Python `col in row`. -/
def rowHas (r : Row) (k : String) : Bool := (rowGet r k).isSome

/-- An in-memory pandas DataFrame: column names plus rows. -/
structure DataFrame where
  cols : List String
  rows : List Row
deriving DecidableEq, Repr

/-! ### Customer Data Store (`src/services/data_service.py`) -/

/-- Errors raised by `CustomerDataService.get_customer_data`: `ValueError`
for a blank id, `FileNotFoundError` when no row matches, and a generic
`Exception` when no identifier column can be resolved. -/
inductive DataErr where
  | valueErr (msg : String)
  | notFoundErr (msg : String)
  | otherErr (msg : String)
deriving DecidableEq, Repr

/-- Alias column names tried by `get_customer_data` when `Customer_CGID`
is absent, in priority order. -/
def possibleColumns : List String :=
  ["customer_id", "Customer_ID", "CUSTOMER_ID", "CustomerID"]

/-- Resolve the customer-identifier column: `Customer_CGID` if present,
otherwise the first present alias (as in `get_customer_data`). -/
def resolveCustomerColumn (df : DataFrame) : Option String :=
  if df.cols.contains "Customer_CGID" then some "Customer_CGID"
  else possibleColumns.find? (fun c => df.cols.contains c)

/-- The rows of `df` whose identifier cell, rendered with `str`, equals the
(already trimmed) id — `data[data[col].astype(str) == str(customer_id)]`. -/
def matchingRows (df : DataFrame) (col cid : String) : List Row :=
  df.rows.filter (fun r => (rowGetD r col (.vStr "nan")).pyStr == cid)

/-- `CustomerDataService.get_customer_data` (data_service.py, lines 60-100). -/
def get_customer_data (df : DataFrame) (customer_id : String) : Except DataErr DataFrame :=
  if customer_id == "" || pyStrip customer_id == "" then
    .error (.valueErr "Customer ID is required")
  else
    let cid := pyStrip customer_id
    match resolveCustomerColumn df with
    | none => .error (.otherErr "No customer ID column found")
    | some col =>
      let customer_data := matchingRows df col cid
      if customer_data.isEmpty then
        .error (.notFoundErr s!"Customer {cid} not found in data")
      else
        .ok ⟨df.cols, customer_data⟩

/-- The summary dictionary built by `get_customer_summary` from the rows
returned by `get_customer_data` (its projection half, lines 112-138). -/
structure CustomerSummary where
  customer_id : String
  bsb : Value
  account : Value
  biocatch_flag : Value
  group_ib_flag : Value
  sasfm_flag : Value
  isod_flag : Value
  cases_past_30_days : Value
  raw_data : List Row
deriving DecidableEq, Repr

/-- Projection half of `CustomerDataService.get_customer_summary`: build the
summary from the customer's rows (first row only, except `raw_data`). -/
def summarize (customer_id : String) (customer_data : List Row) : Option CustomerSummary :=
  match customer_data with
  | [] => none
  | row :: _ =>
    some
      { customer_id := customer_id
        bsb := rowGetD row "BSB" (.vStr "N/A")
        account := rowGetD row "ACCOUNT" (.vStr "N/A")
        biocatch_flag := rowGetD row "BIOCATCH_FLAG" (.vStr "N/A")
        group_ib_flag := rowGetD row "GROUP_IB_FLAG" (.vStr "N/A")
        sasfm_flag := rowGetD row "SASFM_FLAG" (.vStr "N/A")
        isod_flag := rowGetD row "ISOD_FLAG" (.vStr "N/A")
        cases_past_30_days := rowGetD row "Fraud_Cases_Linked_Past_30_Days" (.vInt 0)
        raw_data := customer_data }

/-- The four risk-flag columns scanned by `format_for_ai_analysis`. -/
def flagCols : List String :=
  ["BIOCATCH_FLAG", "GROUP_IB_FLAG", "SASFM_FLAG", "ISOD_FLAG"]

/-- Generic label for one flag cell (`format_for_ai_analysis`, lines 160-167):
the cell value is rendered as a system-name-free indicator, or skipped. -/
def riskLabel (v : Value) : Option String :=
  if pyIn "high risk" (pyLower v.pyStr) then some "High Risk Indicator"
  else if pyIn "medium risk" (pyLower v.pyStr) then some "Medium Risk Indicator"
  else if pyIn "low risk" (pyLower v.pyStr) then some "Low Risk Indicator"
  else none

/-- The `risk_flags` label list of `format_for_ai_analysis`: one generic
label per present flag column whose value matches a risk phrase. -/
def riskLabelList (row : Row) : List String :=
  flagCols.filterMap (fun c =>
    match rowGet row c with
    | some v => riskLabel v
    | none => none)

/-- The qualitative phrase of the Analysis Notes line, chosen by the number
of rendered risk indicators. -/
def riskPhrase (n : Nat) : String :=
  if n > 2 then "multiple risk indicators"
  else if n > 0 then "some risk indicators"
  else "minimal risk indicators"

/-- The fraud-history line of the formatted text, carrying the fraud-case
count. -/
def fraudLine (fraud_cases : Value) : String :=
  "- Previous Fraud Cases: " ++ fraud_cases.pyStr ++ " in past 30 days"

/-- Opening part of the f-string of `format_for_ai_analysis`: header,
identifier, account details and the rendered risk-indicator list. -/
def formatInfoPart (row : Row) (risk_flags : List String) : String :=
  "\n        Customer Analysis Report:\n        \n        Customer ID: "
  ++ (rowGetD row "Customer_CGID" (.vStr "N/A")).pyStr
  ++ "\n        Account Details: BSB "
  ++ (rowGetD row "BSB" (.vStr "N/A")).pyStr
  ++ ", Account "
  ++ (rowGetD row "ACCOUNT" (.vStr "N/A")).pyStr
  ++ "\n        \n        Risk Assessment Summary:\n        - Total Risk Indicators Detected: "
  ++ toString risk_flags.length
  ++ "\n        - Risk Levels Found: "
  ++ (if risk_flags.isEmpty then "None" else String.intercalate ", " risk_flags)
  ++ "\n        \n        Fraud History:\n        "

/-- Closing part of the f-string of `format_for_ai_analysis`. -/
def formatTail (fraudPos : Bool) : String :=
  " detected through automated screening systems.\n        "
  ++ (if fraudPos then "Previous fraud activity detected." else "No previous fraud cases on record.")
  ++ "\n        \n        IMPORTANT: Generate customer-friendly questions only."
  ++ " Do NOT mention system names or technical terms.\n        "

/-- Body of the f-string built by `format_for_ai_analysis` (before the final
`strip`), given the first row, its labels and the fraud-cases cell. -/
def formatBody (row : Row) (risk_flags : List String) (fraud_cases : Value)
    (fraudPos : Bool) : String :=
  formatInfoPart row risk_flags
  ++ fraudLine fraud_cases
  ++ "\n        \n        Analysis Notes:\n        Customer has "
  ++ riskPhrase risk_flags.length
  ++ formatTail fraudPos

/-- `CustomerDataService.format_for_ai_analysis` (lines 140-191). The
integer comparison `fraud_cases > 0` raises a `TypeError` on string cells,
hence the `Except`. -/
def format_for_ai_analysis (customer_data : List Row) : Except String String :=
  match customer_data with
  | [] => .ok "No customer data available"
  | row :: _ =>
    let risk_flags := riskLabelList row
    let fraud_cases := rowGetD row "Fraud_Cases_Linked_Past_30_Days" (.vInt 0)
    match fraud_cases.pyGtZero with
    | .error e => .error e
    | .ok fraudPos => .ok (pyStrip (formatBody row risk_flags fraud_cases fraudPos))

/-- Deduplication preserving first occurrences (pandas `Series.unique`). -/
def uniqueFirst (seen : List String) : List String → List String
  | [] => []
  | x :: xs =>
    if seen.contains x then uniqueFirst seen xs
    else x :: uniqueFirst (x :: seen) xs

/-- `CustomerDataService.get_available_customers` (lines 193-206): reads the
identifier column only under the literal name `Customer_CGID`, returning
`[]` when it is absent. -/
def get_available_customers (df : DataFrame) : List String :=
  if df.cols.contains "Customer_CGID" then
    uniqueFirst [] (df.rows.map (fun r => (rowGetD r "Customer_CGID" (.vStr "nan")).pyStr))
  else
    []

/-! ### Text-Generation Client (`src/services/ai_service.py`) -/

/-- Pattern 1 phrasings of `_generate_pattern_based_questions`. -/
def investmentQuestions : List String :=
  ["Do you believe you are investing with a real firm?",
   "Are you confident this investment opportunity is legitimate?",
   "Do you trust that the company you're investing with is genuine?",
   "Have you verified that this investment firm is real and regulated?",
   "Are you certain the investment platform you're using is authentic?"]

/-- Pattern 2 phrasings. -/
def contactQuestions : List String :=
  ["Was the contact initiated by you or did they contact you first?",
   "Did you reach out to them, or did they approach you initially?",
   "Who made the first contact - you or the investment company?",
   "Did you find them through your own research, or did they contact you directly?",
   "Were you the one who started this conversation, or did they call you first?"]

/-- Pattern 3 phrasings. -/
def accessQuestions : List String :=
  ["Is there any remote access to your computer or are you currently on a call with them?",
   "Do they have access to your computer remotely, or are you speaking with them right now?",
   "Are you currently connected to them through your computer or on a phone call?",
   "Have you given them remote control of your device, or are you talking to them now?",
   "Is someone accessing your computer from their end, or are you in contact with them at the moment?"]

/-- Pattern 4 phrasings. -/
def paymentQuestions : List String :=
  ["Are there multiple payments set up or any future dated payments?",
   "Have you scheduled several payments or any upcoming automatic transfers?",
   "Are there multiple transactions arranged or any payments planned for later?",
   "Have you set up recurring payments or any future-dated transfers?",
   "Are there several payment installments or any scheduled transactions coming up?"]

/-- Pattern 5 phrasings. -/
def resistanceQuestions : List String :=
  ["Are you hesitant to believe this might be a scam?",
   "Do you have any doubts that this could potentially be fraudulent?",
   "Are you concerned this might not be legitimate?",
   "Do you suspect this could be a scam or fraud attempt?",
   "Are you questioning whether this investment opportunity is genuine?"]

/-- `random.choice` on a non-empty list, with the random draw supplied as a
natural number. -/
def pickFrom (l : List String) (i : Nat) : String := l.getD (i % l.length) ""

/-- `OpenAIService._generate_pattern_based_questions` (lines 355-419): one
phrasing per pattern, the five random draws supplied by `sel`. -/
def generatePatternBasedQuestions (sel : Nat → Nat) : List String :=
  [pickFrom investmentQuestions (sel 0),
   pickFrom contactQuestions (sel 1),
   pickFrom accessQuestions (sel 2),
   pickFrom paymentQuestions (sel 3),
   pickFrom resistanceQuestions (sel 4)]

/-- The result dictionary of `analyze_fraud_data`: summary, question list,
risk level, and the optional `error` key (present only in its fallback). -/
structure AIAnalysis where
  summary : String
  questions : List String
  risk_level : String
  errKey : Option String
deriving DecidableEq, Repr

/-- The substring risk heuristic of `OpenAIService.analyze_fraud_data`
(lines 197-202): both tests run on the lowercased text. -/
def riskFromData (transaction_data : String) : String :=
  if pyIn "high risk" (pyLower transaction_data) then "High"
  else if pyIn "fraud_cases_linked_past_30_days: 0" (pyLower transaction_data) then "Low"
  else "Medium"

/-- The hard-coded question list of `analyze_fraud_data`'s exception
fallback (lines 248-254). -/
def aiFallbackQuestions : List String :=
  ["Do you believe you are investing with a real firm?",
   "Was the contact initiated by you or did they contact you first?",
   "Is there any remote access to your computer or are you currently on a call with them?",
   "Are there multiple payments set up or any future dated payments?",
   "Are you hesitant to believe this might be a scam?"]

/-- Environment for one orchestrated analysis call: the outcome of the
remote completion request, the random draws for question selection, an
optional fault injected at the `analyze_fraud_data` call itself, and the
wall-clock timestamp. -/
structure AIEnv where
  remote : Except String String
  sel : Nat → Nat
  callRaises : Option String
  now : Nat

/-- `OpenAIService.analyze_fraud_data` (lines 176-257): risk level by the
substring heuristic, summary from the remote completion, fixed pattern
questions; any failure of the remote call is converted to the fallback
dictionary with an `error` key and risk level `Medium`. -/
def analyze_fraud_data (env : AIEnv) (customer_id transaction_data : String) : AIAnalysis :=
  match env.remote with
  | .ok content =>
    { summary := pyStrip content
      questions := generatePatternBasedQuestions env.sel
      risk_level := riskFromData transaction_data
      errKey := none }
  | .error e =>
    { summary := s!"Analysis completed for customer {customer_id}. Multiple risk factors detected requiring immediate customer verification."
      questions := aiFallbackQuestions
      risk_level := "Medium"
      errKey := some e }

/-! ### JSON parsing (`json.loads` model and `_parse_json_response`) -/

/-- JSON values; numbers are kept exactly as mantissa times a power of ten. -/
inductive JVal where
  | jNull
  | jBool (b : Bool)
  | jNum (mant : Int) (tenExp : Int)
  | jStr (s : String)
  | jArr (xs : List JVal)
  | jObj (fields : List (String × JVal))

/-- JSON whitespace (the characters `json.loads` skips between tokens). -/
def skipWs (l : List Char) : List Char :=
  l.dropWhile (fun c => c == ' ' || c == '\t' || c == '\n' || c == '\r')

/-- Value of one hexadecimal digit. -/
def hexVal (c : Char) : Option Nat :=
  if '0' ≤ c ∧ c ≤ '9' then some (c.toNat - '0'.toNat)
  else if 'a' ≤ c ∧ c ≤ 'f' then some (c.toNat - 'a'.toNat + 10)
  else if 'A' ≤ c ∧ c ≤ 'F' then some (c.toNat - 'A'.toNat + 10)
  else none

/-- Simple escape characters inside JSON strings. -/
def escSimple : Char → Option Char
  | '"' => some '"'
  | '\\' => some '\\'
  | '/' => some '/'
  | 'b' => some (Char.ofNat 8)
  | 'f' => some (Char.ofNat 12)
  | 'n' => some '\n'
  | 'r' => some '\r'
  | 't' => some '\t'
  | _ => none

/-- Parse the remainder of a JSON string literal (after the opening quote),
returning its characters and the rest of the input. -/
def parseStrChars : Nat → List Char → Option (List Char × List Char)
  | 0, _ => none
  | _ + 1, [] => none
  | fuel + 1, c :: rest =>
    if c == '"' then some ([], rest)
    else if c == '\\' then
      match rest with
      | [] => none
      | e :: rest2 =>
        if e == 'u' then
          match rest2 with
          | h1 :: h2 :: h3 :: h4 :: rest3 =>
            match hexVal h1, hexVal h2, hexVal h3, hexVal h4 with
            | some n1, some n2, some n3, some n4 =>
              match parseStrChars fuel rest3 with
              | some (cs, rem) =>
                some (Char.ofNat (((n1 * 16 + n2) * 16 + n3) * 16 + n4) :: cs, rem)
              | none => none
            | _, _, _, _ => none
          | _ => none
        else
          match escSimple e with
          | none => none
          | some ec =>
            match parseStrChars fuel rest2 with
            | some (cs, rem) => some (ec :: cs, rem)
            | none => none
    else
      match parseStrChars fuel rest with
      | some (cs, rem) => some (c :: cs, rem)
      | none => none

/-- Take a maximal run of decimal digits. -/
def takeDigits (l : List Char) : List Char × List Char :=
  (l.takeWhile Char.isDigit, l.dropWhile Char.isDigit)

/-- Natural number denoted by a digit run. -/
def digitsToNat (ds : List Char) : Nat :=
  ds.foldl (fun acc c => acc * 10 + (c.toNat - '0'.toNat)) 0

/-- Parse a JSON number starting at the given input (strict: non-empty
integer part, no leading zeros, optional fraction and exponent). -/
def parseNum (l : List Char) : Option (JVal × List Char) :=
  let (neg, l1) := match l with
    | '-' :: rest => (true, rest)
    | _ => (false, l)
  let (intDs, l2) := takeDigits l1
  if intDs.isEmpty then none
  else if intDs.length > 1 ∧ intDs.headD '0' == '0' then none
  else
    let (fracDs, l3) := match l2 with
      | '.' :: rest => takeDigits rest
      | _ => ([], l2)
    match l2, fracDs with
    | '.' :: _, [] => none
    | _, _ =>
      let (hasExpMark, l4) := match l3 with
        | 'e' :: rest => (true, rest)
        | 'E' :: rest => (true, rest)
        | _ => (false, l3)
      let (expNeg, l5) := match hasExpMark, l4 with
        | true, '-' :: rest => (true, rest)
        | true, '+' :: rest => (false, rest)
        | _, _ => (false, l4)
      let (expDs, l6) := if hasExpMark then takeDigits l5 else ([], l5)
      if hasExpMark ∧ expDs.isEmpty then none
      else
        let mantNat : Nat := digitsToNat (intDs ++ fracDs)
        let mant : Int := if neg then -(mantNat : Int) else (mantNat : Int)
        let exp0 : Int := (if expNeg then -(digitsToNat expDs : Int) else (digitsToNat expDs : Int))
        some (.jNum mant (exp0 - fracDs.length), if hasExpMark then l6 else l3)

mutual

/-- Parse one JSON value (after skipping leading whitespace). -/
def parseVal : Nat → List Char → Option (JVal × List Char)
  | 0, _ => none
  | fuel + 1, l =>
    match skipWs l with
    | [] => none
    | c :: rest =>
      if c == '"' then
        match parseStrChars (fuel + 1) rest with
        | some (cs, rem) => some (.jStr ⟨cs⟩, rem)
        | none => none
      else if c == 't' then
        if startsWithL "rue".data rest then some (.jBool true, rest.drop 3) else none
      else if c == 'f' then
        if startsWithL "alse".data rest then some (.jBool false, rest.drop 4) else none
      else if c == 'n' then
        if startsWithL "ull".data rest then some (.jNull, rest.drop 3) else none
      else if c == '[' then
        match skipWs rest with
        | ']' :: rem => some (.jArr [], rem)
        | l2 =>
          match parseVal fuel l2 with
          | some (x, rem) => parseArrRest fuel [x] rem
          | none => none
      else if c == Char.ofNat 123 then
        match skipWs rest with
        | l2 =>
          if startsWithL [Char.ofNat 125] l2 then some (.jObj [], l2.drop 1)
          else
            match parseObjField fuel l2 with
            | some (kv, rem) => parseObjRest fuel [kv] rem
            | none => none
      else
        parseNum (c :: rest)

/-- Parse the continuation of an array after one element: `,` plus another
element, or the closing bracket. -/
def parseArrRest : Nat → List JVal → List Char → Option (JVal × List Char)
  | 0, _, _ => none
  | fuel + 1, acc, l =>
    match skipWs l with
    | ']' :: rem => some (.jArr acc.reverse, rem)
    | ',' :: rest =>
      match parseVal fuel rest with
      | some (x, rem) => parseArrRest fuel (x :: acc) rem
      | none => none
    | _ => none

/-- Parse one `"key": value` field of an object. -/
def parseObjField : Nat → List Char → Option ((String × JVal) × List Char)
  | 0, _ => none
  | fuel + 1, l =>
    match skipWs l with
    | '"' :: rest =>
      match parseStrChars (fuel + 1) rest with
      | some (cs, rem) =>
        match skipWs rem with
        | ':' :: rest2 =>
          match parseVal fuel rest2 with
          | some (v, rem2) => some ((⟨cs⟩, v), rem2)
          | none => none
        | _ => none
      | none => none
    | _ => none

/-- Parse the continuation of an object after one field. -/
def parseObjRest : Nat → List (String × JVal) → List Char → Option (JVal × List Char)
  | 0, _, _ => none
  | fuel + 1, acc, l =>
    match skipWs l with
    | ',' :: rest =>
      match parseObjField fuel rest with
      | some (kv, rem) => parseObjRest fuel (kv :: acc) rem
      | none => none
    | l2 =>
      if startsWithL [Char.ofNat 125] l2 then some (.jObj acc.reverse, l2.drop 1)
      else none

end

/-- `json.loads`: parse a complete JSON document (trailing whitespace only). -/
def jsonParse (s : String) : Option JVal :=
  match parseVal (2 * s.data.length + 16) s.data with
  | some (v, rem) => if (skipWs rem).isEmpty then some v else none
  | none => none

/-- Dictionary lookup on a parsed JSON object; as in a Python dict built by
`json.loads`, a repeated key keeps its last value. -/
def jLookup (v : JVal) (key : String) : Option JVal :=
  match v with
  | .jObj fields => ((fields.filter (fun p => p.1 == key)).getLast?).map (fun p => p.2)
  | _ => none

/-- The `questions` entry of the fallback dictionary returned by
`_parse_json_response` on a parse failure (lines 166-172). -/
def parseFallbackQuestions : List String :=
  ["Can you verify your recent account activity?",
   "Have you noticed any unauthorized transactions?",
   "Have you shared your account details with anyone recently?",
   "Are you aware of any suspicious communications?",
   "Can you confirm your recent login locations?"]

/-- The fallback dictionary returned by `_parse_json_response` when JSON
parsing fails, for the given (already preprocessed) content. -/
def parseFallback (content : String) : JVal :=
  .jObj
    [("error", .jStr "Failed to parse AI response"),
     ("raw_content", .jStr content),
     ("summary", .jStr "Analysis completed but response format was invalid"),
     ("questions", .jArr (parseFallbackQuestions.map .jStr)),
     ("risk_level", .jStr "Medium")]

/-- Index of the first occurrence of `needle` in `l` (Python `str.find`,
`none` standing for `-1`). -/
def findSubIdx (needle l : List Char) : Option Nat :=
  (List.range (l.length + 1)).find? (fun i => startsWithL needle (l.drop i))

/-- The preprocessing of `_parse_json_response` before `json.loads`: strip,
extract a fenced ```json block when present, then normalize single quotes
to double quotes. -/
def preprocessContent (content : String) : String :=
  let c := pyStrip content
  let c :=
    if pyIn "```json" c then
      match findSubIdx "```json".data c.data with
      | some i =>
        let start := i + 7
        match findSubIdx "```".data (c.data.drop start) with
        | some j => pyStrip ⟨(c.data.drop start).take j⟩
        | none => c
      | none => c
    else c
  pyReplace c "'" "\""

/-- `OpenAIService._parse_json_response` (lines 127-174): preprocess, then
`json.loads`; a `JSONDecodeError` is converted to the deterministic
fallback dictionary carrying the processed content. -/
def parse_json_response (content : String) : JVal :=
  let c := preprocessContent content
  match jsonParse c with
  | some parsed => parsed
  | none => parseFallback c

/-! ### Report models (`src/models/analysis.py`) -/

/-- `RiskAssessment` enum. -/
inductive RiskAssessment where
  | low
  | medium
  | high
  | critical
deriving DecidableEq, Repr

/-- `RiskAssessment(value)`: enum construction from its string value,
raising `ValueError` on anything else. -/
def riskAssessmentOfString : String → Except String RiskAssessment
  | "Low" => .ok .low
  | "Medium" => .ok .medium
  | "High" => .ok .high
  | "Critical" => .ok .critical
  | s => .error s!"ValueError: {s} is not a valid RiskAssessment"

/-- `QuestionCategory` enum. -/
inductive QuestionCategory where
  | transactionPattern
  | accountActivity
  | identityVerification
  | behavioralAnalysis
  | technicalIndicators
deriving DecidableEq, Repr

/-- `InvestigativeQuestion` model. -/
structure InvestigativeQuestion where
  question : String
  category : QuestionCategory
  priority : Nat
  context : String
deriving DecidableEq, Repr

/-- `FraudAnalysisSummary` model; the float confidence score is modelled as
an exact rational, the timestamp as a number. -/
structure FraudAnalysisSummary where
  customer_id : String
  analysis_timestamp : Nat
  risk_assessment : RiskAssessment
  confidence_score : ℚ
  key_findings : List String
  red_flags : List String
  summary : String
deriving DecidableEq, Repr

/-- Validating construction of `FraudAnalysisSummary`: pydantic checks
`0 ≤ confidence_score ≤ 1` and a non-empty `key_findings`. -/
def mkFraudAnalysisSummary (cid : String) (ts : Nat) (risk : RiskAssessment)
    (conf : ℚ) (findings red : List String) (summ : String) :
    Except String FraudAnalysisSummary :=
  if conf < 0 ∨ 1 < conf then .error "confidence_score out of range"
  else if findings.isEmpty then .error "At least one key finding must be provided"
  else .ok ⟨cid, ts, risk, conf, findings, red, summ⟩

/-- `AnalysisResponse` model. -/
structure AnalysisResponse where
  customer_id : String
  analysis_summary : FraudAnalysisSummary
  investigative_questions : List InvestigativeQuestion
  recommended_actions : List String
  next_steps : List String
deriving DecidableEq, Repr

/-- Validating construction of `AnalysisResponse`: pydantic requires
between 5 and 8 investigative questions. -/
def mkAnalysisResponse (cid : String) (s : FraudAnalysisSummary)
    (qs : List InvestigativeQuestion) (recs steps : List String) :
    Except String AnalysisResponse :=
  if qs.length < 5 ∨ 8 < qs.length then
    .error "Must have between 5-8 investigative questions"
  else .ok ⟨cid, s, qs, recs, steps⟩

/-! ### Fraud Analysis Orchestrator (`src/services/analysis_service.py`) -/

/-- `AnalysisService._get_customer_data` (lines 103-110): rewrap store
errors as generic exceptions with the orchestrator's messages. -/
def orchGetCustomerData (df : DataFrame) (customer_id : String) : Except String DataFrame :=
  match get_customer_data df customer_id with
  | .ok d => .ok d
  | .error (.notFoundErr _) => .error s!"Customer {customer_id} not found in database"
  | .error (.valueErr m) => .error s!"Failed to retrieve customer data: {m}"
  | .error (.otherErr m) => .error s!"Failed to retrieve customer data: {m}"

/-- The risk heuristic of `AnalysisService._create_fallback_ai_analysis`
(lines 135-141): note the zero-fraud marker is tested against the raw
text, not the lowercased text. -/
def fallbackRiskHeuristic (data : String) : String :=
  if pyIn "high risk" (pyLower data) then "High"
  else if pyIn "fraud_cases_linked_past_30_days: 0" data then "Low"
  else "Medium"

/-- `AnalysisService._create_fallback_ai_analysis` (lines 132-154). -/
def create_fallback_ai_analysis (customer_id data : String) : AIAnalysis :=
  { summary := s!"Technical analysis completed for customer {customer_id}. Multiple risk indicators detected. Manual review recommended."
    questions :=
      ["Can you verify your recent account activity and confirm all transactions?",
       "Have you noticed any unusual or unauthorized account access recently?",
       "Have you shared your account credentials with anyone or accessed your account from new devices?",
       "Can you confirm your current contact information and verify any recent changes?",
       "Have you received any suspicious communications claiming to be from our bank?"]
    risk_level := fallbackRiskHeuristic data
    errKey := none }

/-- `AnalysisService._perform_ai_analysis` (lines 112-130): call the client
and substitute the local fallback analysis if that call itself raises. -/
def perform_ai_analysis (env : AIEnv) (customer_id formatted_data : String) : AIAnalysis :=
  match env.callRaises with
  | some _ => create_fallback_ai_analysis customer_id formatted_data
  | none => analyze_fraud_data env customer_id formatted_data

/-- `AnalysisService._calculate_confidence_score` (lines 182-199). -/
def calculate_confidence_score (ai : AIAnalysis) (customer_data : List Row) : ℚ :=
  let base : ℚ := 7/10
  let base := if 0 < customer_data.length then base + 1/10 else base
  let base := if ai.errKey.isNone then base + 1/10 else base
  let base := if 5 ≤ ai.questions.length then base + 1/10 else base
  min base 1

/-- The risk-flag columns scanned by `_extract_key_findings`. -/
def riskColumns : List String :=
  ["BIOCATCH_FLAG", "GROUP_IB_FLAG", "SASFM_FLAG", "ISOD_FLAG"]

/-- The display name of a flag column in key findings:
`col.replace('_FLAG', '').title()`. -/
def flagDisplayName (c : String) : String := pyTitle (pyReplace c "_FLAG" "")

/-- The flag columns of the first row whose value contains `high`
(case-insensitively), title-cased with the suffix stripped. -/
def highRiskFlagNames (row : Row) : List String :=
  riskColumns.filterMap (fun c =>
    match rowGet row c with
    | some v => if pyIn "high" (pyLower v.pyStr) then some (flagDisplayName c) else none
    | none => none)

/-- `AnalysisService._extract_key_findings` (lines 201-235). The integer
comparison on the fraud-cases cell can raise, hence the `Except`. -/
def extract_key_findings (ai : AIAnalysis) (customer_data : List Row) :
    Except String (List String) :=
  let withData : Except String (List String) :=
    match customer_data with
    | [] => .ok []
    | row :: _ =>
      let names := highRiskFlagNames row
      let findings :=
        if names.isEmpty then []
        else ["High risk flags detected: " ++ String.intercalate ", " names]
      match rowGet row "Fraud_Cases_Linked_Past_30_Days" with
      | none => .ok findings
      | some v =>
        match v.pyGtZero with
        | .error e => .error e
        | .ok b =>
          .ok (findings ++ (if b then [s!"Previous fraud cases: {v.pyStr} in past 30 days"] else []))
  match withData with
  | .error e => .error e
  | .ok findings =>
    let findings :=
      if pyIn "multiple" (pyLower ai.summary) && pyIn "risk" (pyLower ai.summary) then
        findings ++ ["Multiple fraud risk indicators identified"]
      else findings
    .ok (if findings.isEmpty then ["Customer data reviewed for fraud indicators"] else findings)

/-- `row.get(col) == 'high risk'`: true only for a string cell equal to
the literal. -/
def cellIsHighRisk (row : Row) (c : String) : Bool :=
  match rowGet row c with
  | some (.vStr s) => s == "high risk"
  | _ => false

/-- `AnalysisService._identify_red_flags` (lines 237-259). -/
def identify_red_flags (customer_data : List Row) : Except String (List String) :=
  match customer_data with
  | [] => .ok []
  | row :: _ =>
    let red :=
      (if cellIsHighRisk row "BIOCATCH_FLAG" then ["BioCatch behavioral analysis flagged high risk"] else [])
      ++ (if cellIsHighRisk row "GROUP_IB_FLAG" then ["Group IB fraud detection flagged high risk"] else [])
      ++ (if cellIsHighRisk row "SASFM_FLAG" then ["SASFM system flagged high risk"] else [])
    let fraud_cases := rowGetD row "Fraud_Cases_Linked_Past_30_Days" (.vInt 0)
    match fraud_cases.pyGtZero with
    | .error e => .error e
    | .ok b =>
      .ok (red ++ (if b then [s!"Customer involved in {fraud_cases.pyStr} fraud case(s) in past 30 days"] else []))

/-- `AnalysisService._create_analysis_summary` (lines 156-180), including
the `RiskAssessment` enum conversion and pydantic validation. -/
def create_analysis_summary (now : Nat) (customer_id : String) (ai : AIAnalysis)
    (customer_data : List Row) : Except String FraudAnalysisSummary :=
  let confidence := calculate_confidence_score ai customer_data
  match extract_key_findings ai customer_data with
  | .error e => .error e
  | .ok key_findings =>
    match identify_red_flags customer_data with
    | .error e => .error e
    | .ok red_flags =>
      match riskAssessmentOfString ai.risk_level with
      | .error e => .error e
      | .ok risk =>
        mkFraudAnalysisSummary customer_id now risk confidence key_findings red_flags ai.summary

/-- `AnalysisService._categorize_question` (lines 284-299). -/
def categorize_question (question : String) : QuestionCategory :=
  let q := pyLower question
  if pyIn "transaction" q || pyIn "payment" q || pyIn "charge" q || pyIn "amount" q then
    .transactionPattern
  else if pyIn "device" q || pyIn "login" q || pyIn "access" q || pyIn "location" q then
    .accountActivity
  else if pyIn "verify" q || pyIn "confirm" q || pyIn "identity" q || pyIn "contact" q then
    .identityVerification
  else if pyIn "behavior" q || pyIn "habit" q || pyIn "routine" q || pyIn "change" q then
    .behavioralAnalysis
  else if pyIn "security" q || pyIn "communication" q || pyIn "email" q || pyIn "phone" q then
    .technicalIndicators
  else
    .accountActivity

/-- `AnalysisService._assign_question_priority` (lines 301-312). -/
def assign_question_priority (category : QuestionCategory) (position : Nat) : Nat :=
  let base := max (5 - position) 1
  if category = .identityVerification then min (base + 1) 5
  else if category = .transactionPattern then min (base + 1) 5
  else base

/-- `AnalysisService._generate_question_context` (lines 314-327). -/
def generate_question_context (category : QuestionCategory) : String :=
  match category with
  | .transactionPattern => "Verify transaction legitimacy and identify unauthorized activity"
  | .accountActivity => "Assess account access patterns and potential security breaches"
  | .identityVerification => "Confirm customer identity and account ownership"
  | .behavioralAnalysis => "Understand changes in customer banking behavior"
  | .technicalIndicators => "Evaluate security threats and suspicious communications"

/-- `AnalysisService._create_investigative_questions` (lines 261-282):
structure the raw question strings, capped at 8. -/
def create_investigative_questions (ai_questions : List String) : List InvestigativeQuestion :=
  (ai_questions.take 8).enum.map (fun p =>
    let category := categorize_question p.2
    { question := p.2
      category := category
      priority := assign_question_priority category p.1
      context := generate_question_context category })

/-- `AnalysisService._generate_recommendations` (lines 329-355). -/
def generate_recommendations (ai : AIAnalysis) : List String :=
  if ai.risk_level == "High" then
    ["Conduct immediate customer interview to verify account activity",
     "Consider temporary account restrictions until verification complete",
     "Document all customer responses for compliance review",
     "Escalate to fraud investigation team if concerns remain"]
  else if ai.risk_level == "Medium" then
    ["Schedule customer call within 24 hours",
     "Review transaction history for additional anomalies",
     "Verify customer contact information",
     "Monitor account for unusual activity"]
  else
    ["Document analysis results in customer file",
     "Continue standard account monitoring",
     "Consider routine follow-up in 30 days"]

/-- `AnalysisService._generate_next_steps` (lines 357-378). -/
def generate_next_steps (risk_level : String) : List String :=
  if risk_level == "High" then
    ["Complete customer interview using generated questions",
     "Verify all suspicious transactions with customer",
     "Update customer risk profile based on findings",
     "Coordinate with fraud prevention team if needed"]
  else if risk_level == "Medium" then
    ["Conduct customer verification call",
     "Review customer explanations for any red flags",
     "Update account notes with interview results",
     "Schedule follow-up review in 7-14 days"]
  else
    ["Complete routine verification if desired",
     "File analysis results for record keeping",
     "Return to standard account monitoring"]

/-- The fixed question list of `_create_fallback_analysis` (lines 395-426). -/
def fallbackQuestionList : List InvestigativeQuestion :=
  [{ question := "Do you believe you are investing with a real firm?"
     category := .identityVerification, priority := 5
     context := "Investment legitimacy assessment" },
   { question := "Was the contact initiated by you or did they contact you first?"
     category := .behavioralAnalysis, priority := 5
     context := "Contact initiation assessment" },
   { question := "Is there any remote access to your computer or are you currently on a call with them?"
     category := .technicalIndicators, priority := 5
     context := "Remote access indicator check" },
   { question := "Are there multiple payments set up or any future dated payments?"
     category := .transactionPattern, priority := 4
     context := "Payment pattern assessment" },
   { question := "Are you hesitant to believe this might be a scam?"
     category := .behavioralAnalysis, priority := 4
     context := "Scam resistance assessment" }]

/-- `AnalysisService._create_fallback_analysis` (lines 380-434), built
through the validating model constructors (a validation failure would
propagate, so it is kept fallible). -/
def create_fallback_analysis (customer_id error_message : String) (now : Nat) :
    Except String AnalysisResponse :=
  match mkFraudAnalysisSummary customer_id now .medium (3/10)
      [s!"Analysis error occurred: {error_message}", "Manual review required"]
      ["Technical analysis failure"]
      s!"Unable to complete automated analysis for customer {customer_id}. Manual review recommended." with
  | .error e => .error e
  | .ok summary =>
    mkAnalysisResponse customer_id summary fallbackQuestionList
      ["Manual fraud analysis required", "Contact technical support"]
      ["Escalate to manual review process"]

/-- Steps 1-7 inside the `try` block of `AnalysisService.analyze_customer`
(lines 57-95). -/
def analyzeSteps (env : AIEnv) (df : DataFrame) (customer_id : String) :
    Except String AnalysisResponse :=
  match orchGetCustomerData df customer_id with
  | .error e => .error e
  | .ok customer_data =>
    match format_for_ai_analysis customer_data.rows with
    | .error e => .error e
    | .ok formatted_data =>
      let ai := perform_ai_analysis env customer_id formatted_data
      match create_analysis_summary env.now customer_id ai customer_data.rows with
      | .error e => .error e
      | .ok analysis_summary =>
        let questions := create_investigative_questions ai.questions
        let recommendations := generate_recommendations ai
        let next_steps := generate_next_steps ai.risk_level
        mkAnalysisResponse customer_id analysis_summary questions recommendations next_steps

/-- `AnalysisService.analyze_customer` (lines 37-101): any exception inside
the `try` block is converted to the complete fallback report. -/
def analyze_customer (env : AIEnv) (df : DataFrame) (customer_id : String) :
    Except String AnalysisResponse :=
  match analyzeSteps env df customer_id with
  | .ok response => .ok response
  | .error e => create_fallback_analysis customer_id e env.now

/-! ### Well-formedness of a report, and concrete fixtures -/

/-- The report shape promised by the spec: 5-8 investigative questions,
non-empty key findings, confidence score in the unit interval. -/
def wellFormedReport (r : AnalysisResponse) : Prop :=
  5 ≤ r.investigative_questions.length ∧ r.investigative_questions.length ≤ 8 ∧
  r.analysis_summary.key_findings ≠ [] ∧
  0 ≤ r.analysis_summary.confidence_score ∧ r.analysis_summary.confidence_score ≤ 1

/-- The customer row of the unit-test fixture (customer `12345`). -/
def sampleRow : Row :=
  [("Customer_CGID", .vStr "12345"), ("BSB", .vStr "803-323"),
   ("ACCOUNT", .vStr "123456789"), ("BIOCATCH_FLAG", .vStr "high risk"),
   ("GROUP_IB_FLAG", .vStr "high risk"), ("SASFM_FLAG", .vStr "medium risk"),
   ("ISOD_FLAG", .vStr "low risk"), ("Fraud_Cases_Linked_Past_30_Days", .vInt 1)]

/-- The unit-test DataFrame holding `sampleRow`. -/
def sampleDf : DataFrame :=
  ⟨["Customer_CGID", "BSB", "ACCOUNT", "BIOCATCH_FLAG", "GROUP_IB_FLAG", "SASFM_FLAG",
    "ISOD_FLAG", "Fraud_Cases_Linked_Past_30_Days"], [sampleRow]⟩

/-- An environment whose remote completion succeeds. -/
def okEnv : AIEnv := ⟨.ok "Multiple risk factors detected.", fun _ => 0, none, 0⟩

/-- An environment whose remote completion raises. -/
def failEnv : AIEnv := ⟨.error "Connection error", fun _ => 0, none, 0⟩

/-- A DataFrame with no columns at all. -/
def emptyDf : DataFrame := ⟨[], []⟩

/-- A DataFrame whose identifier column carries an alias name instead of
`Customer_CGID`. -/
def aliasDf : DataFrame := ⟨["customer_id"], [[("customer_id", .vStr "42")]]⟩

/-- An AI analysis dictionary with no error key and five questions. -/
def okAi : AIAnalysis :=
  ⟨"Summary.", ["q1", "q2", "q3", "q4", "q5"], "Medium", none⟩

/-- An AI analysis dictionary with an error key and fewer than 5 questions. -/
def badAi : AIAnalysis := ⟨"Summary.", [], "Medium", some "boom"⟩

/-! ### Lemmas about the string primitives -/

theorem data_append (a b : String) : (a ++ b).data = a.data ++ b.data := rfl

theorem startsWithL_iff (m l : List Char) :
    startsWithL m l = true ↔ ∃ t, l = m ++ t := by
  induction m generalizing l with
  | nil => simp [startsWithL]
  | cons a as ih =>
    cases l with
    | nil =>
      simp [startsWithL]
    | cons b bs =>
      simp only [startsWithL, Bool.and_eq_true, beq_iff_eq, ih, List.cons_append]
      constructor
      · rintro ⟨rfl, t, rfl⟩
        exact ⟨t, rfl⟩
      · rintro ⟨t, h⟩
        cases h
        exact ⟨rfl, t, rfl⟩

theorem hasSub_iff (m l : List Char) :
    hasSub m l = true ↔ ∃ a b, l = a ++ m ++ b := by
  induction l with
  | nil =>
    simp only [hasSub, startsWithL_iff]
    constructor
    · rintro ⟨t, h⟩
      exact ⟨[], t, by simpa using h⟩
    · rintro ⟨a, b, h⟩
      have h' : a ++ (m ++ b) = [] := by simpa [List.append_assoc] using h.symm
      rcases List.append_eq_nil.mp h' with ⟨h1, h2⟩
      rcases List.append_eq_nil.mp h2 with ⟨h3, h4⟩
      exact ⟨[], by simp [h3]⟩
  | cons c cs ih =>
    simp only [hasSub, Bool.or_eq_true, startsWithL_iff, ih]
    constructor
    · rintro (⟨t, h⟩ | ⟨a, b, h⟩)
      · exact ⟨[], t, by simpa using h⟩
      · exact ⟨c :: a, b, by simp [h]⟩
    · rintro ⟨a, b, h⟩
      cases a with
      | nil => exact Or.inl ⟨b, by simpa using h⟩
      | cons x xs =>
        right
        refine ⟨xs, b, ?_⟩
        rw [List.cons_append, List.cons_append] at h
        exact (List.cons_eq_cons.mp h).2

theorem hasSub_of_decomp {m a b : List Char} : hasSub m (a ++ m ++ b) = true :=
  (hasSub_iff m _).mpr ⟨a, b, rfl⟩

/-- Occurrence of a pattern is preserved by character-wise mapping. -/
theorem hasSub_map (f : Char → Char) {m l : List Char} (h : hasSub m l = true) :
    hasSub (m.map f) (l.map f) = true := by
  rcases (hasSub_iff m l).mp h with ⟨a, b, rfl⟩
  exact (hasSub_iff _ _).mpr ⟨a.map f, b.map f, by simp⟩

/-- Occurrence is preserved under reversal of both pattern and text. -/
theorem hasSub_reverse {m l : List Char} (h : hasSub m l = true) :
    hasSub m.reverse l.reverse = true := by
  rcases (hasSub_iff m l).mp h with ⟨a, b, rfl⟩
  exact (hasSub_iff _ _).mpr ⟨b.reverse, a.reverse, by simp⟩

/-- If the pattern starts with a non-whitespace character, an occurrence
survives dropping leading whitespace. -/
theorem hasSub_dropWhile {c : Char} {m' l : List Char} (hc : isSpaceChar c = false)
    (h : hasSub (c :: m') l = true) :
    hasSub (c :: m') (l.dropWhile isSpaceChar) = true := by
  rcases (hasSub_iff _ l).mp h with ⟨a, b, rfl⟩
  rw [List.append_assoc, List.cons_append, List.dropWhile_append]
  split
  · rw [List.dropWhile_cons_of_neg (by simp [hc])]
    exact (hasSub_iff _ _).mpr ⟨[], b, by simp⟩
  · exact (hasSub_iff _ _).mpr ⟨List.dropWhile isSpaceChar a, b, by simp [List.append_assoc]⟩

/-- An occurrence of a pattern with non-whitespace first and last characters
survives `strip`. -/
theorem hasSub_stripL {c d : Char} {m : List Char} {l : List Char}
    (hhead : ∃ t, m = c :: t) (hlast : ∃ t, m.reverse = d :: t)
    (hc : isSpaceChar c = false) (hd : isSpaceChar d = false)
    (h : hasSub m l = true) :
    hasSub m (stripL l) = true := by
  rcases hhead with ⟨t, rfl⟩
  have h1 : hasSub (c :: t) (l.dropWhile isSpaceChar) = true := hasSub_dropWhile hc h
  have h2 := hasSub_reverse h1
  rcases hlast with ⟨t2, ht2⟩
  rw [ht2] at h2
  have h3 : hasSub (d :: t2) ((l.dropWhile isSpaceChar).reverse.dropWhile isSpaceChar) = true :=
    hasSub_dropWhile hd h2
  rw [← ht2] at h3
  have h4 := hasSub_reverse h3
  simpa [stripL] using h4


/-! ### Helper lemmas about the orchestrator -/

theorem mkFraudAnalysisSummary_ok {cid ts risk conf findings red summ s}
    (h : mkFraudAnalysisSummary cid ts risk conf findings red summ = .ok s) :
    s = ⟨cid, ts, risk, conf, findings, red, summ⟩ ∧
      0 ≤ conf ∧ conf ≤ 1 ∧ findings ≠ [] := by
  unfold mkFraudAnalysisSummary at h
  split at h
  · exact absurd h (by simp)
  · rename_i hconf
    split at h
    · exact absurd h (by simp)
    · rename_i hfind
      refine ⟨by injection h with h; exact h.symm, ?_, ?_, ?_⟩
      · push_neg at hconf
        exact hconf.1
      · push_neg at hconf
        exact hconf.2
      · simpa [List.isEmpty_iff] using hfind

theorem mkAnalysisResponse_ok {cid s qs recs steps r}
    (h : mkAnalysisResponse cid s qs recs steps = .ok r) :
    r = ⟨cid, s, qs, recs, steps⟩ ∧ 5 ≤ qs.length ∧ qs.length ≤ 8 := by
  unfold mkAnalysisResponse at h
  split at h
  · exact absurd h (by simp)
  · rename_i hlen
    push_neg at hlen
    exact ⟨by injection h with h; exact h.symm, hlen.1, hlen.2⟩

theorem create_analysis_summary_ok {now cid ai rows s}
    (h : create_analysis_summary now cid ai rows = .ok s) :
    s.key_findings ≠ [] ∧ 0 ≤ s.confidence_score ∧ s.confidence_score ≤ 1 := by
  unfold create_analysis_summary at h
  dsimp only at h
  split at h
  · exact absurd h (by simp)
  · split at h
    · exact absurd h (by simp)
    · split at h
      · exact absurd h (by simp)
      · obtain ⟨hs, hc0, hc1, hfind⟩ := mkFraudAnalysisSummary_ok h
        subst hs
        exact ⟨hfind, hc0, hc1⟩

/-- Every report produced by the validated success path is well-formed. -/
theorem analyzeSteps_ok_wellFormed {env df cid r}
    (h : analyzeSteps env df cid = .ok r) : wellFormedReport r := by
  unfold analyzeSteps at h
  split at h
  · exact absurd h (by simp)
  · split at h
    · exact absurd h (by simp)
    · dsimp only at h
      split at h
      · exact absurd h (by simp)
      · rename_i summary hsummary
        obtain ⟨hr, h5, h8⟩ := mkAnalysisResponse_ok h
        obtain ⟨hfind, hc0, hc1⟩ := create_analysis_summary_ok hsummary
        subst hr
        exact ⟨h5, h8, hfind, hc0, hc1⟩

/-- The fallback report, written out explicitly. -/
theorem create_fallback_analysis_eq (cid msg : String) (now : Nat) :
    create_fallback_analysis cid msg now =
      .ok ⟨cid,
           ⟨cid, now, .medium, 3/10,
            [s!"Analysis error occurred: {msg}", "Manual review required"],
            ["Technical analysis failure"],
            s!"Unable to complete automated analysis for customer {cid}. Manual review recommended."⟩,
           fallbackQuestionList,
           ["Manual fraud analysis required", "Contact technical support"],
           ["Escalate to manual review process"]⟩ := by
  unfold create_fallback_analysis mkFraudAnalysisSummary mkAnalysisResponse
  norm_num [fallbackQuestionList]

/-! ### Claim C1 -/

/-- Claim C1: for every customer identifier that exists in the store,
`analyze_customer` always returns a well-formed report — between 5 and 8
investigative questions, non-empty key findings, and a confidence score in
[0,1] — and never propagates an exception: any failure inside the analysis
steps is converted into the complete fallback report. -/
theorem C1_analyze_customer_total_wellformed (env : AIEnv) (df : DataFrame)
    (cid : String) (h : (get_customer_data df cid).isOk = true) :
    (∃ r, analyze_customer env df cid = .ok r ∧ wellFormedReport r) ∧
      (∀ e, analyzeSteps env df cid = .error e →
        analyze_customer env df cid = create_fallback_analysis cid e env.now) := by
  constructor
  · unfold analyze_customer
    cases hs : analyzeSteps env df cid with
    | ok r => exact ⟨r, rfl, analyzeSteps_ok_wellFormed hs⟩
    | error e =>
      dsimp only
      rw [create_fallback_analysis_eq]
      refine ⟨_, rfl, ?_, ?_, ?_, ?_, ?_⟩
      · norm_num [fallbackQuestionList]
      · norm_num [fallbackQuestionList]
      · simp
      · norm_num
      · norm_num
  · intro e he
    unfold analyze_customer
    rw [he]

theorem C1_witness :
    ((get_customer_data sampleDf "12345").isOk = true) ∧
      ((∃ r, analyze_customer okEnv sampleDf "12345" = .ok r ∧ wellFormedReport r) ∧
        (∀ e, analyzeSteps okEnv sampleDf "12345" = .error e →
          analyze_customer okEnv sampleDf "12345" =
            create_fallback_analysis "12345" e okEnv.now)) :=
  ⟨by decide, C1_analyze_customer_total_wellformed okEnv sampleDf "12345" (by decide)⟩

/-! ### Claim C2 -/

/-- Claim C2: whenever the internal analysis steps fail (any exception in
the `try` block), the returned fallback report has risk level Medium,
confidence score exactly 0.3, exactly 5 investigative questions, and
red flags `["Technical analysis failure"]`. -/
theorem C2_fallback_report_invariant (env : AIEnv) (df : DataFrame) (cid e : String)
    (h : analyzeSteps env df cid = .error e) :
    ∃ r, analyze_customer env df cid = .ok r ∧
      r.analysis_summary.risk_assessment = .medium ∧
      r.analysis_summary.confidence_score = 3/10 ∧
      r.investigative_questions.length = 5 ∧
      r.analysis_summary.red_flags = ["Technical analysis failure"] := by
  unfold analyze_customer
  rw [h]
  dsimp only
  rw [create_fallback_analysis_eq]
  exact ⟨_, rfl, rfl, rfl, rfl, rfl⟩

theorem C2_witness :
    ∃ r, analyze_customer okEnv emptyDf "x" = .ok r ∧
      r.analysis_summary.risk_assessment = .medium ∧
      r.analysis_summary.confidence_score = 3/10 ∧
      r.investigative_questions.length = 5 ∧
      r.analysis_summary.red_flags = ["Technical analysis failure"] :=
  C2_fallback_report_invariant okEnv emptyDf "x"
    "Failed to retrieve customer data: No customer ID column found" rfl

/-! ### Claim C3 -/

/-- Claim C3 counterexample: the claim promises that for every string input
the parsed result carries a questions list of length at least 5, but on the
valid JSON input `delimiting an empty object` the method returns the parsed
empty object, which has no questions entry at all. -/
theorem C3_counterexample :
    ¬ ∃ qs, jLookup (parse_json_response "\x7b\x7d") "questions" = some (JVal.jArr qs) ∧
        5 ≤ qs.length := by
  rintro ⟨qs, h, -⟩
  rw [show parse_json_response "\x7b\x7d" = .jObj [] from rfl] at h
  simp [jLookup] at h

/-- Claim C3 (amended): `parse_json_response` never raises; whenever JSON
parsing of the preprocessed content fails it returns the deterministic
fallback object — error marker, the processed raw content, a generic
summary, the fixed five-question list and risk level Medium — whose
questions list has length 5; when parsing succeeds it returns the parsed
value verbatim, which need not contain a questions list. -/
theorem C3_parse_response_fallback (content : String) :
    (jsonParse (preprocessContent content) = none →
      parse_json_response content = parseFallback (preprocessContent content) ∧
      jLookup (parse_json_response content) "error" =
        some (.jStr "Failed to parse AI response") ∧
      jLookup (parse_json_response content) "raw_content" =
        some (.jStr (preprocessContent content)) ∧
      jLookup (parse_json_response content) "summary" =
        some (.jStr "Analysis completed but response format was invalid") ∧
      jLookup (parse_json_response content) "questions" =
        some (.jArr (parseFallbackQuestions.map .jStr)) ∧
      parseFallbackQuestions.length = 5 ∧
      jLookup (parse_json_response content) "risk_level" = some (.jStr "Medium")) ∧
    (∀ j, jsonParse (preprocessContent content) = some j →
      parse_json_response content = j) := by
  constructor
  · intro h
    have hp : parse_json_response content = parseFallback (preprocessContent content) := by
      unfold parse_json_response
      dsimp only
      rw [h]
    refine ⟨hp, ?_, ?_, ?_, ?_, rfl, ?_⟩ <;> rw [hp] <;> rfl
  · intro j h
    unfold parse_json_response
    dsimp only
    rw [h]

theorem C3_witness :
    parse_json_response "This is not JSON" =
        parseFallback (preprocessContent "This is not JSON") ∧
      jLookup (parse_json_response "This is not JSON") "questions" =
        some (.jArr (parseFallbackQuestions.map .jStr)) ∧
      parseFallbackQuestions.length = 5 :=
  ⟨((C3_parse_response_fallback "This is not JSON").1 rfl).1,
   ((C3_parse_response_fallback "This is not JSON").1 rfl).2.2.2.2.1,
   ((C3_parse_response_fallback "This is not JSON").1 rfl).2.2.2.2.2.1⟩

/-! ### Claim C4 -/

/-- Claim C4: on the success path of `analyze_fraud_data` the coarse risk
level is determined by substring tests with precedence: the text contains
`high risk` (case-insensitively) gives High; otherwise containing the
zero-fraud-cases marker `fraud_cases_linked_past_30_days: 0` (tested on the
lowercased text, so also case-insensitively) gives Low; otherwise Medium. -/
theorem C4_risk_level_precedence (env : AIEnv) (cid data s : String)
    (h : env.remote = .ok s) :
    (pyIn "high risk" (pyLower data) = true →
      (analyze_fraud_data env cid data).risk_level = "High") ∧
    (pyIn "high risk" (pyLower data) = false →
      pyIn "fraud_cases_linked_past_30_days: 0" (pyLower data) = true →
      (analyze_fraud_data env cid data).risk_level = "Low") ∧
    (pyIn "high risk" (pyLower data) = false →
      pyIn "fraud_cases_linked_past_30_days: 0" (pyLower data) = false →
      (analyze_fraud_data env cid data).risk_level = "Medium") := by
  unfold analyze_fraud_data
  rw [h]
  refine ⟨fun h1 => ?_, fun h1 h2 => ?_, fun h1 h2 => ?_⟩ <;>
    simp_all [riskFromData]

theorem C4_witness :
    (analyze_fraud_data okEnv "c1" "BIOCATCH: High Risk detected").risk_level = "High" ∧
      (analyze_fraud_data okEnv "c2" "Fraud_Cases_Linked_Past_30_Days: 0").risk_level = "Low" ∧
      (analyze_fraud_data okEnv "c3" "nothing of note").risk_level = "Medium" :=
  ⟨(C4_risk_level_precedence okEnv "c1" "BIOCATCH: High Risk detected" _ rfl).1 rfl,
   (C4_risk_level_precedence okEnv "c2" "Fraud_Cases_Linked_Past_30_Days: 0" _ rfl).2.1 rfl rfl,
   (C4_risk_level_precedence okEnv "c3" "nothing of note" _ rfl).2.2 rfl rfl⟩

/-! ### Claim C5 -/

/-- Claim C5 counterexample: the orchestrator's local fallback heuristic and
the client's heuristic are not extensionally equal — on a mixed-case
zero-fraud marker the client lowercases before testing (giving Low) while
the local fallback tests the raw text (giving Medium). -/
theorem C5_counterexample :
    fallbackRiskHeuristic "Fraud_Cases_Linked_Past_30_Days: 0" ≠
      riskFromData "Fraud_Cases_Linked_Past_30_Days: 0" := by
  decide

/-- Claim C5 (amended): the two heuristics agree on the high-risk branch and
on any input that is already lowercase, and whenever the local fallback
answers Low so does the client; they differ only because the fallback's
zero-fraud marker test does not lowercase its input. -/
theorem C5_heuristics_agreement (data : String) :
    (pyLower data = data → fallbackRiskHeuristic data = riskFromData data) ∧
    (pyIn "high risk" (pyLower data) = true →
      fallbackRiskHeuristic data = riskFromData data) ∧
    (fallbackRiskHeuristic data = "Low" → riskFromData data = "Low") := by
  refine ⟨?_, ?_, ?_⟩
  · intro h
    unfold fallbackRiskHeuristic riskFromData
    rw [h]
  · intro h
    unfold fallbackRiskHeuristic riskFromData
    rw [h]
    simp
  · intro h
    unfold fallbackRiskHeuristic at h
    by_cases h1 : pyIn "high risk" (pyLower data) = true
    · rw [if_pos h1] at h
      exact absurd h (by decide)
    · rw [if_neg h1] at h
      by_cases h2 : pyIn "fraud_cases_linked_past_30_days: 0" data = true
      · have h3 : pyIn "fraud_cases_linked_past_30_days: 0" (pyLower data) = true := by
          have hm := hasSub_map Char.toLower h2
          have hfix :
              "fraud_cases_linked_past_30_days: 0".data.map Char.toLower =
                "fraud_cases_linked_past_30_days: 0".data := by decide
          simpa [pyIn, pyLower, hfix] using hm
        unfold riskFromData
        rw [if_neg h1, if_pos h3]
      · rw [if_neg h2] at h
        exact absurd h (by decide)

theorem C5_witness :
    (pyLower "all lowercase text" = "all lowercase text" ∧
      fallbackRiskHeuristic "all lowercase text" = riskFromData "all lowercase text") ∧
      (fallbackRiskHeuristic "fraud_cases_linked_past_30_days: 0" = "Low" ∧
        riskFromData "fraud_cases_linked_past_30_days: 0" = "Low") :=
  ⟨⟨rfl, (C5_heuristics_agreement "all lowercase text").1 rfl⟩,
   ⟨rfl, (C5_heuristics_agreement "fraud_cases_linked_past_30_days: 0").2.2 rfl⟩⟩

/-! ### Claim C6 -/

/-- Claim C6: the confidence score equals 0.70 plus 0.10 for each of the
three conditions (non-empty record, no error marker, at least 5 questions),
the clamp at 1.0 never lowering it; hence it always lies in [0.7, 1.0], and
with a non-empty record an analysis with no error marker and at least 5
questions scores strictly higher than one with an error marker and fewer
than 5 questions. -/
theorem C6_confidence_score (ai : AIAnalysis) (rows : List Row) :
    (calculate_confidence_score ai rows =
      7/10 + (if 0 < rows.length then (1 : ℚ)/10 else 0)
           + (if ai.errKey.isNone then (1 : ℚ)/10 else 0)
           + (if 5 ≤ ai.questions.length then (1 : ℚ)/10 else 0)) ∧
    7/10 ≤ calculate_confidence_score ai rows ∧
    calculate_confidence_score ai rows ≤ 1 ∧
    (∀ ai2 : AIAnalysis, 0 < rows.length → ai.errKey = none →
      5 ≤ ai.questions.length → ai2.errKey.isSome = true →
      ai2.questions.length < 5 →
      calculate_confidence_score ai2 rows < calculate_confidence_score ai rows) := by
  refine ⟨?_, ?_, ?_, ?_⟩
  · unfold calculate_confidence_score
    dsimp only
    split_ifs <;> norm_num [min_def]
  · unfold calculate_confidence_score
    dsimp only
    split_ifs <;> norm_num [min_def]
  · unfold calculate_confidence_score
    dsimp only
    split_ifs <;> norm_num [min_def]
  · intro ai2 hrow herr hq herr2 hq2
    have h1 : ai.errKey.isNone = true := by simp [herr]
    have h2 : ai2.errKey.isNone = false := by
      cases hk : ai2.errKey with
      | none => rw [hk] at herr2; exact absurd herr2 (by decide)
      | some v => rfl
    have e1 : calculate_confidence_score ai rows = 1 := by
      unfold calculate_confidence_score
      dsimp only
      rw [if_pos hq, if_pos (show ai.errKey.isNone = true from h1), if_pos hrow]
      norm_num [min_def]
    have e2 : calculate_confidence_score ai2 rows = 8/10 := by
      unfold calculate_confidence_score
      dsimp only
      rw [if_neg (show ¬ 5 ≤ ai2.questions.length from by omega),
        if_neg (show ¬ ai2.errKey.isNone = true from by simp [h2]), if_pos hrow]
      norm_num [min_def]
    rw [e1, e2]
    norm_num

theorem C6_witness :
    calculate_confidence_score badAi [sampleRow] <
      calculate_confidence_score okAi [sampleRow] :=
  (C6_confidence_score okAi [sampleRow]).2.2.2 badAi (by decide) rfl (by decide)
    (by decide) (by decide)

/-! ### Claim C8 -/

/-- Claim C8: `get_customer_data` fails with `ValueError` exactly on
blank identifiers; otherwise it trims the identifier, compares it
case-sensitively as a string against the resolved identifier column
(the string-equality filter `matchingRows`), fails `NotFound` when no row
matches, and returns the matching rows otherwise. -/
theorem C8_lookup_semantics (df : DataFrame) (customer_id : String) :
    (pyStrip customer_id = "" →
      get_customer_data df customer_id = .error (.valueErr "Customer ID is required")) ∧
    (pyStrip customer_id ≠ "" → ∀ c, resolveCustomerColumn df = some c →
      (matchingRows df c (pyStrip customer_id) = [] →
        get_customer_data df customer_id =
          .error (.notFoundErr s!"Customer {pyStrip customer_id} not found in data")) ∧
      (matchingRows df c (pyStrip customer_id) ≠ [] →
        get_customer_data df customer_id =
          .ok ⟨df.cols, matchingRows df c (pyStrip customer_id)⟩)) := by
  constructor
  · intro h
    unfold get_customer_data
    rw [if_pos (by simp [h])]
  · intro h c hc
    have h0 : customer_id ≠ "" := fun he => h (by rw [he]; rfl)
    have hcond : (customer_id == "" || pyStrip customer_id == "") = false := by
      simp [h0, h]
    constructor
    · intro hm
      unfold get_customer_data
      rw [hcond, if_neg Bool.false_ne_true]
      dsimp only
      rw [hc]
      dsimp only
      rw [if_pos (by simp [hm])]
    · intro hm
      unfold get_customer_data
      rw [hcond, if_neg Bool.false_ne_true]
      dsimp only
      rw [hc]
      dsimp only
      rw [if_neg (by simp [List.isEmpty_iff, hm])]

theorem C8_witness :
    get_customer_data sampleDf "   " = .error (.valueErr "Customer ID is required") ∧
      get_customer_data sampleDf " 12345 " = .ok ⟨sampleDf.cols, [sampleRow]⟩ :=
  ⟨(C8_lookup_semantics sampleDf "   ").1 rfl,
   ((C8_lookup_semantics sampleDf " 12345 ").2 (by decide) "Customer_CGID" rfl).2 (by decide)⟩

/-! ### Claim C9 -/

/-- Claim C9: each downstream projection of a customer's rows — the summary
(apart from its `raw_data` field, which carries all rows), the formatted
analysis text, the extracted key findings and the identified red flags —
is a function of the first row only: two row lists with the same head give
identical results. -/
theorem C9_projections_use_first_row (cid : String) (row : Row) (t1 t2 : List Row)
    (ai : AIAnalysis) :
    (∃ s1 s2, summarize cid (row :: t1) = some s1 ∧ summarize cid (row :: t2) = some s2 ∧
      s1.raw_data = row :: t1 ∧ s2.raw_data = row :: t2 ∧
      s1.customer_id = s2.customer_id ∧ s1.bsb = s2.bsb ∧ s1.account = s2.account ∧
      s1.biocatch_flag = s2.biocatch_flag ∧ s1.group_ib_flag = s2.group_ib_flag ∧
      s1.sasfm_flag = s2.sasfm_flag ∧ s1.isod_flag = s2.isod_flag ∧
      s1.cases_past_30_days = s2.cases_past_30_days) ∧
    format_for_ai_analysis (row :: t1) = format_for_ai_analysis (row :: t2) ∧
    extract_key_findings ai (row :: t1) = extract_key_findings ai (row :: t2) ∧
    identify_red_flags (row :: t1) = identify_red_flags (row :: t2) :=
  ⟨⟨_, _, rfl, rfl, rfl, rfl, rfl, rfl, rfl, rfl, rfl, rfl, rfl, rfl⟩, rfl, rfl, rfl⟩

/-! ### Claim C10 -/

/-- Claim C10: `get_available_customers` reads the identifier column only
under the literal name `Customer_CGID`: without that exact column it
returns the empty list (trying no aliases), while `get_customer_data` can
still resolve an alias column and succeed on the same table. -/
theorem C10_available_requires_cgid :
    (∀ df : DataFrame, df.cols.contains "Customer_CGID" = false →
      get_available_customers df = []) ∧
    (aliasDf.cols.contains "Customer_CGID" = false ∧
      get_available_customers aliasDf = [] ∧
      get_customer_data aliasDf "42" =
        .ok ⟨["customer_id"], [[("customer_id", .vStr "42")]]⟩) := by
  refine ⟨?_, rfl, rfl, rfl⟩
  intro df h
  unfold get_available_customers
  rw [h, if_neg Bool.false_ne_true]

theorem C10_witness : get_available_customers emptyDf = [] :=
  C10_available_requires_cgid.1 emptyDf rfl

/-! ### Claim C7 -/

/-- An occurrence of a pattern of the shape `A ++ mid ++ B`, with `A`
starting and `B` ending in non-whitespace, survives `strip`. -/
theorem hasSub_stripL_of_ends {c d : Char} (A mid B l : List Char)
    (hA : ∃ t, A = c :: t) (hB : ∃ t, B.reverse = d :: t)
    (hc : isSpaceChar c = false) (hd : isSpaceChar d = false)
    (h : hasSub (A ++ mid ++ B) l = true) :
    hasSub (A ++ mid ++ B) (stripL l) = true := by
  apply hasSub_stripL (c := c) (d := d) ?_ ?_ hc hd h
  · rcases hA with ⟨t, rfl⟩
    exact ⟨t ++ mid ++ B, by simp⟩
  · rcases hB with ⟨t, ht⟩
    exact ⟨t ++ (A ++ mid).reverse, by simp [List.reverse_append, ht]⟩

/-- Every rendered flag label is one of the three generic indicators. -/
theorem riskLabel_mem {v : Value} {l : String} (h : riskLabel v = some l) :
    l = "High Risk Indicator" ∨ l = "Medium Risk Indicator" ∨ l = "Low Risk Indicator" := by
  unfold riskLabel at h
  split_ifs at h <;> simp_all

/-- Under the documented flag-value domain, the rendered label list counts
exactly the present flags whose value is not the unknown marker `N/A`. -/
theorem labels_count_eq (cols : List String) (row : Row)
    (h : ∀ c ∈ cols, rowGet row c = none ∨ rowGet row c = some (.vStr "high risk") ∨
      rowGet row c = some (.vStr "medium risk") ∨ rowGet row c = some (.vStr "low risk") ∨
      rowGet row c = some (.vStr "N/A")) :
    (cols.filterMap (fun c => match rowGet row c with
      | some v => riskLabel v
      | none => none)).length =
      (cols.filter (fun c =>
        (rowGet row c).isSome && !(rowGet row c == some (.vStr "N/A")))).length := by
  induction cols with
  | nil => rfl
  | cons c cs ih =>
    have hrest := ih (fun x hx => h x (List.mem_cons_of_mem c hx))
    have hH : riskLabel (.vStr "high risk") = some "High Risk Indicator" := rfl
    have hM : riskLabel (.vStr "medium risk") = some "Medium Risk Indicator" := rfl
    have hL : riskLabel (.vStr "low risk") = some "Low Risk Indicator" := rfl
    have hN : riskLabel (.vStr "N/A") = none := rfl
    rcases h c (List.mem_cons_self c cs) with hc | hc | hc | hc | hc <;>
      simp [List.filterMap_cons, List.filter_cons, hc, hH, hM, hL, hN, hrest]

theorem pyIn_data (a b : String) : pyIn a b = hasSub a.data b.data := rfl

theorem pyStrip_data (s : String) : (pyStrip s).data = stripL s.data := rfl

theorem fraudLine_data (fc : Value) :
    (fraudLine fc).data =
      "- Previous Fraud Cases: ".data ++ fc.pyStr.data ++ " in past 30 days".data := by
  simp only [fraudLine, data_append]

/-- Claim C7: for a non-empty table whose flag values are drawn from the
documented domain and whose fraud-case cell is an integer,
`format_for_ai_analysis` succeeds and its text renders each risk flag only
as a generic High/Medium/Low Risk Indicator label (no flag-source system
names), counts exactly the non-unknown flags, includes the fraud-case
count, and includes the qualitative phrase chosen by the count of
non-unknown flags (more than 2: multiple; more than 0: some; else
minimal). -/
theorem C7_format_for_ai_analysis (row : Row) (rest : List Row)
    (hflags : ∀ c ∈ flagCols, rowGet row c = none ∨
      rowGet row c = some (.vStr "high risk") ∨ rowGet row c = some (.vStr "medium risk") ∨
      rowGet row c = some (.vStr "low risk") ∨ rowGet row c = some (.vStr "N/A"))
    (hfraud : ∃ n : Int, rowGetD row "Fraud_Cases_Linked_Past_30_Days" (.vInt 0) = .vInt n) :
    ∃ text, format_for_ai_analysis (row :: rest) = .ok text ∧
      (∀ l ∈ riskLabelList row, l = "High Risk Indicator" ∨ l = "Medium Risk Indicator" ∨
        l = "Low Risk Indicator") ∧
      (riskLabelList row).length =
        (flagCols.filter (fun c =>
          (rowGet row c).isSome && !(rowGet row c == some (.vStr "N/A")))).length ∧
      pyIn (fraudLine (rowGetD row "Fraud_Cases_Linked_Past_30_Days" (.vInt 0))) text = true ∧
      pyIn (riskPhrase (riskLabelList row).length) text = true ∧
      riskPhrase (riskLabelList row).length =
        (if 2 < (riskLabelList row).length then "multiple risk indicators"
         else if 0 < (riskLabelList row).length then "some risk indicators"
         else "minimal risk indicators") := by
  obtain ⟨n, hn⟩ := hfraud
  have hfmt : format_for_ai_analysis (row :: rest) =
      .ok (pyStrip (formatBody row (riskLabelList row) (.vInt n) (decide (0 < n)))) := by
    unfold format_for_ai_analysis
    dsimp only
    rw [hn]
    rfl
  refine ⟨_, hfmt, ?_, ?_, ?_, ?_, ?_⟩
  · intro l hl
    unfold riskLabelList at hl
    rw [List.mem_filterMap] at hl
    obtain ⟨c, -, hc⟩ := hl
    cases hrg : rowGet row c with
    | none => rw [hrg] at hc; exact absurd hc (by simp)
    | some v =>
      rw [hrg] at hc
      exact riskLabel_mem hc
  · exact labels_count_eq flagCols row hflags
  · rw [hn, pyIn_data, pyStrip_data]
    have hbody : hasSub (fraudLine (Value.vInt n)).data
        (formatBody row (riskLabelList row) (.vInt n) (decide (0 < n))).data = true := by
      apply (hasSub_iff _ _).mpr
      refine ⟨(formatInfoPart row (riskLabelList row)).data,
        ("\n        \n        Analysis Notes:\n        Customer has " : String).data ++
          ((riskPhrase (riskLabelList row).length).data ++
          (formatTail (decide (0 < n))).data), ?_⟩
      simp only [formatBody, data_append, List.append_assoc]
    rw [fraudLine_data] at hbody ⊢
    exact hasSub_stripL_of_ends ("- Previous Fraud Cases: ".data)
      ((Value.vInt n).pyStr.data) (" in past 30 days".data) _
      ⟨_, rfl⟩ ⟨_, rfl⟩ (by decide) (by decide) hbody
  · rw [pyIn_data, pyStrip_data]
    have hbody : hasSub (riskPhrase (riskLabelList row).length).data
        (formatBody row (riskLabelList row) (.vInt n) (decide (0 < n))).data = true := by
      apply (hasSub_iff _ _).mpr
      refine ⟨(formatInfoPart row (riskLabelList row)).data ++
        ((fraudLine (Value.vInt n)).data ++
          ("\n        \n        Analysis Notes:\n        Customer has " : String).data),
        (formatTail (decide (0 < n))).data, ?_⟩
      simp only [formatBody, data_append, List.append_assoc]
    unfold riskPhrase at hbody ⊢
    split_ifs at hbody ⊢ with h1 h2
    · exact hasSub_stripL (c := 'm') (d := 's') ⟨_, rfl⟩ ⟨_, rfl⟩
        (by decide) (by decide) hbody
    · exact hasSub_stripL (c := 's') (d := 's') ⟨_, rfl⟩ ⟨_, rfl⟩
        (by decide) (by decide) hbody
    · exact hasSub_stripL (c := 'm') (d := 's') ⟨_, rfl⟩ ⟨_, rfl⟩
        (by decide) (by decide) hbody
  · rfl

theorem C7_witness :
    ∃ text, format_for_ai_analysis (sampleRow :: []) = .ok text ∧
      (∀ l ∈ riskLabelList sampleRow, l = "High Risk Indicator" ∨
        l = "Medium Risk Indicator" ∨ l = "Low Risk Indicator") ∧
      (riskLabelList sampleRow).length =
        (flagCols.filter (fun c =>
          (rowGet sampleRow c).isSome && !(rowGet sampleRow c == some (.vStr "N/A")))).length ∧
      pyIn (fraudLine (rowGetD sampleRow "Fraud_Cases_Linked_Past_30_Days" (.vInt 0)))
        text = true ∧
      pyIn (riskPhrase (riskLabelList sampleRow).length) text = true ∧
      riskPhrase (riskLabelList sampleRow).length =
        (if 2 < (riskLabelList sampleRow).length then "multiple risk indicators"
         else if 0 < (riskLabelList sampleRow).length then "some risk indicators"
         else "minimal risk indicators") :=
  C7_format_for_ai_analysis sampleRow [] (by decide) ⟨1, by decide⟩

end ScamurAI
